import Mathlib

set_option maxRecDepth 100000

/-
  Verification development for the adsbexchange binary snapshot decoder
  (src/src/main.rs).  The decoder is embedded shallowly:

  * byte buffers are lists of naturals, masked to 8 bits on every read;
  * little-endian lane views (u16/s16/u32/s32) are pure functions of the
    record bytes, exactly as the Rust code builds its lane vectors;
  * Rust panics (out-of-bounds slicing, Option unwrap on None) are modeled
    as Option.none results;
  * f32/f64 scaled values are modeled exactly as rationals: the Rust
    literal 4294967.296 denotes 2^32 / 1000, and every scale used by the
    decoder (divisions by 10, 90, 100, 1000, 1e6) is exact in that model;
  * the rssi field applies a transcendental log10, so the embedding keeps
    the raw byte that feeds it;
  * the UTF-8 lossy text fields are kept at byte level: the embedding
    stores the raw byte slice with trailing zero bytes trimmed, which is
    what the Rust code produces up to character decoding.
-/

namespace Adsb

/-- One byte of the buffer; out-of-range indices are only ever read under
the length side conditions that mirror the Rust bounds checks. -/
def byteAt (d : List Nat) (i : Nat) : Nat := d.getD i 0 % 256

/-- Little-endian 16-bit read at a byte offset. -/
def le16at (d : List Nat) (off : Nat) : Nat :=
  byteAt d off + 256 * byteAt d (off + 1)

/-- Little-endian 32-bit read at a byte offset. -/
def le32at (d : List Nat) (off : Nat) : Nat :=
  byteAt d off + 256 * byteAt d (off + 1) + 65536 * byteAt d (off + 2) +
    16777216 * byteAt d (off + 3)

/-- Reinterpret an unsigned 16-bit value as two's-complement signed. -/
def toS16 (n : Nat) : Int := if n < 32768 then (n : Int) else (n : Int) - 65536

/-- Reinterpret an unsigned 32-bit value as two's-complement signed. -/
def toS32 (n : Nat) : Int :=
  if n < 2147483648 then (n : Int) else (n : Int) - 4294967296

/-- Signed 16-bit read at a byte offset. -/
def s16at (d : List Nat) (off : Nat) : Int := toS16 (le16at d off)

/-- Signed 32-bit read at a byte offset. -/
def s32at (d : List Nat) (off : Nat) : Int := toS32 (le32at d off)

/-- The u16 lane view of a record (lane i covers bytes 2i, 2i+1),
as built by the loop at main.rs:157-160. -/
def u16lane (r : List Nat) (i : Nat) : Nat := le16at r (2 * i)

/-- The i16 lane view of a record. -/
def s16lane (r : List Nat) (i : Nat) : Int := toS16 (u16lane r i)

/-- The u32 lane view of a record (lane i covers bytes 4i .. 4i+3),
as built by the loop at main.rs:152-155. -/
def u32lane (r : List Nat) (i : Nat) : Nat := le32at r (4 * i)

/-- The i32 lane view of a record. -/
def s32lane (r : List Nat) (i : Nat) : Int := toS32 (u32lane r i)

/-- The byte slice d[i..j), as produced by Rust range slicing. -/
def byteSlice (d : List Nat) (i j : Nat) : List Nat := (d.drop i).take (j - i)

/-- Remove all trailing zero bytes, mirroring trim_end_matches on NUL. -/
def trimZeros (l : List Nat) : List Nat :=
  (l.reverse.dropWhile (fun b => b == 0)).reverse

/-- Lowercase hexadecimal digit for a value below 16. -/
def hexChar (d : Nat) : Char :=
  if d < 10 then Char.ofNat (48 + d) else Char.ofNat (87 + d % 16)

/-- Uppercase hexadecimal digit for a value below 16. -/
def hexCharU (d : Nat) : Char :=
  if d < 10 then Char.ofNat (48 + d) else Char.ofNat (55 + d % 16)

/-- Two-digit uppercase hex, as format with 02X produces for a byte. -/
def hex2U (n : Nat) : String :=
  String.mk [hexCharU (n / 16 % 16), hexCharU (n % 16)]

/-- Four-digit lowercase hex, as format with 04x produces for a u16. -/
def hex4 (n : Nat) : String :=
  String.mk [hexChar (n / 4096 % 16), hexChar (n / 256 % 16),
             hexChar (n / 16 % 16), hexChar (n % 16)]

/-- Six-digit lowercase hex, as format with 06x produces for a value below
2^24. -/
def hex6 (n : Nat) : String :=
  String.mk [hexChar (n / 1048576 % 16), hexChar (n / 65536 % 16),
             hexChar (n / 4096 % 16), hexChar (n / 256 % 16),
             hexChar (n / 16 % 16), hexChar (n % 16)]

/-- Squawk construction, main.rs:180-195.  The code formats u16 lane 16 as
four lowercase hex digits, then calls to_digit(10).unwrap() on the first
character.  For first characters 0-9 this yields a digit not exceeding 9,
the repair branch is skipped, and the string is kept.  For first
characters a-f, to_digit(10) is None and the unwrap panics, so the repair
branch that the code carries (splicing to_digit(16) of the first
character) is unreachable.  The panic is modeled as none. -/
def squawkRaw (v : Nat) : Option String :=
  if v / 4096 % 16 ≤ 9 then some (hex4 v) else none

/-- Closed variant set of signal types, main.rs:9-25. -/
inductive SignalType where
  | AdsbIcao | AdsbIcaoNt | AdsrIcao | TisbIcao | Adsc | Mlat | Other
  | ModeS | AdsbOther | AdsrOther | TisbTrackfile | TisbOther | ModeAc
  | Unknown
deriving DecidableEq, Inhabited

/-- Code to variant table, main.rs:351-369; codes 13-15 fall to Unknown. -/
def signalTypeOf (c : Nat) : SignalType :=
  match c with
  | 0 => SignalType.AdsbIcao
  | 1 => SignalType.AdsbIcaoNt
  | 2 => SignalType.AdsrIcao
  | 3 => SignalType.TisbIcao
  | 4 => SignalType.Adsc
  | 5 => SignalType.Mlat
  | 6 => SignalType.Other
  | 7 => SignalType.ModeS
  | 8 => SignalType.AdsbOther
  | 9 => SignalType.AdsrOther
  | 10 => SignalType.TisbTrackfile
  | 11 => SignalType.TisbOther
  | 12 => SignalType.ModeAc
  | _ => SignalType.Unknown

/-- Nav-mode capability list from the raw nav-mode byte, main.rs:340-349,
pushed in source order. -/
def navModesList (b : Nat) : List String :=
  (if 1 &&& b ≠ 0 then ["autopilot"] else []) ++
  (if 2 &&& b ≠ 0 then ["vnav"] else []) ++
  (if 4 &&& b ≠ 0 then ["alt_hold"] else []) ++
  (if 8 &&& b ≠ 0 then ["approach"] else []) ++
  (if 16 &&& b ≠ 0 then ["lnav"] else []) ++
  (if 32 &&& b ≠ 0 then ["tcas"] else [])

/-- The Aircraft entity, main.rs:55-118.  Field defaults mirror the Rust
derive of Default.  Scaled f32 fields are exact rationals; the three text
fields are byte lists (see the header comment); rssi keeps its raw byte
because the Rust value applies log10 to it. -/
structure Aircraft where
  hex : String := ""
  seen_pos : Option ℚ := none
  seen : Option ℚ := none
  lon : Option ℚ := none
  lat : Option ℚ := none
  baro_rate : Option ℤ := none
  geom_rate : Option ℤ := none
  alt_baro : Option ℤ := none
  alt_baro_label : Option String := none
  alt_geom : Option ℤ := none
  nav_altitude_mcp : Option ℕ := none
  nav_altitude_fms : Option ℕ := none
  nav_qnh : Option ℚ := none
  nav_heading : Option ℚ := none
  squawk : Option String := none
  gs : Option ℚ := none
  mach : Option ℚ := none
  roll : Option ℚ := none
  track : Option ℚ := none
  track_rate : Option ℚ := none
  mag_heading : Option ℚ := none
  true_heading : Option ℚ := none
  wd : Option ℤ := none
  ws : Option ℤ := none
  oat : Option ℤ := none
  tat : Option ℤ := none
  tas : Option ℕ := none
  ias : Option ℕ := none
  rc : ℕ := 0
  messages : ℕ := 0
  message_rate : ℕ := 0
  category : Option String := none
  nic : ℕ := 0
  nav_modes : List String := []
  emergency : Option ℕ := none
  signal_type : Option SignalType := none
  airground : ℕ := 0
  nav_altitude_src : Option ℕ := none
  sil_type : ℕ := 0
  adsb_version : ℕ := 0
  adsr_version : ℕ := 0
  tisb_version : ℕ := 0
  nac_p : Option ℕ := none
  nac_v : Option ℕ := none
  sil : Option ℕ := none
  gva : Option ℕ := none
  sda : Option ℕ := none
  nic_a : Option ℕ := none
  nic_c : Option ℕ := none
  flight : Option (List Nat) := none
  db_flags : ℕ := 0
  tail : List Nat := []
  registration : List Nat := []
  receiver_count : ℕ := 0
  rssi_raw : ℕ := 0
  extra_flags : ℕ := 0
  nogps : ℕ := 0
  nic_baro : Option ℕ := none
  alert1 : Option ℕ := none
  spi : Option ℕ := none
  r_id : Option String := none
deriving DecidableEq, Inhabited

/-- A field that the Rust code first assigns Some value and later sets to
None when its validity mask bit is clear; the two steps collapse to one
conditional because nothing touches the field in between. -/
def maskField {α : Type} (c : Prop) [Decidable c] (v : α) : Option α :=
  if c then some v else none

/-- Effective validity byte 73: the sentinel correction of main.rs:273-276
force-sets bits 6 (value 64) and 4 (value 16) on the private record copy
when the nogps flag is set and the raw latitude lane holds 2147483647;
64 ||| 16 = 80. -/
def effByte73 (rec : List Nat) : Nat :=
  if 1 &&& byteAt rec 106 ≠ 0 ∧ s32lane rec 3 = 2147483647 then
    byteAt rec 73 ||| 80
  else byteAt rec 73

/-- The aircraft value produced by build_aircraft, main.rs:136-372, given
the record bytes, the effective byte 73 (post sentinel correction), the
message-rate flag, and the already computed squawk string.  Every raw
value is read from the original record bytes, which the Rust code fixed in
its lane vectors and byte reads before the sentinel write; only the byte
73 reads at lines 278-290 see the corrected byte. -/
def mkAircraft (rec : List Nat) (b73v : Nat) (useRate : Bool) (sq : String) :
    Aircraft := {
  hex := if (1 <<< 24) &&& u32lane rec 0 ≠ 0 then
           ("~") ++ hex6 (16777215 &&& u32lane rec 0)
         else hex6 (16777215 &&& u32lane rec 0),
  seen_pos := maskField (64 &&& b73v ≠ 0) ((u16lane rec 2 : ℚ) / 10),
  seen := some ((u16lane rec 3 : ℚ) / 10),
  lon := maskField (64 &&& b73v ≠ 0) ((s32lane rec 2 : ℚ) / 1000000),
  lat := maskField (64 &&& b73v ≠ 0) ((s32lane rec 3 : ℚ) / 1000000),
  baro_rate := maskField (1 &&& byteAt rec 75 ≠ 0) (8 * s16lane rec 8),
  geom_rate := maskField (2 &&& byteAt rec 75 ≠ 0) (8 * s16lane rec 9),
  alt_baro := maskField (16 &&& b73v ≠ 0) (25 * s16lane rec 10),
  alt_baro_label := if 15 &&& byteAt rec 68 = 1 then some ("ground") else none,
  alt_geom := maskField (32 &&& b73v ≠ 0) (25 * s16lane rec 11),
  nav_altitude_mcp := maskField (64 &&& byteAt rec 76 ≠ 0) (4 * u16lane rec 12),
  nav_altitude_fms := maskField (128 &&& byteAt rec 76 ≠ 0) (4 * u16lane rec 13),
  nav_qnh := maskField (32 &&& byteAt rec 76 ≠ 0) ((s16lane rec 14 : ℚ) / 10),
  nav_heading := maskField (2 &&& byteAt rec 77 ≠ 0) ((s16lane rec 15 : ℚ) / 90),
  squawk := maskField (4 &&& byteAt rec 76 ≠ 0) sq,
  gs := maskField (128 &&& b73v ≠ 0) ((s16lane rec 17 : ℚ) / 10),
  mach := maskField (4 &&& byteAt rec 74 ≠ 0) ((s16lane rec 18 : ℚ) / 1000),
  roll := maskField (32 &&& byteAt rec 74 ≠ 0) ((s16lane rec 19 : ℚ) / 100),
  track := maskField (8 &&& byteAt rec 74 ≠ 0) ((s16lane rec 20 : ℚ) / 90),
  track_rate := maskField (16 &&& byteAt rec 74 ≠ 0) ((s16lane rec 21 : ℚ) / 100),
  mag_heading := maskField (64 &&& byteAt rec 74 ≠ 0) ((s16lane rec 22 : ℚ) / 90),
  true_heading := maskField (128 &&& byteAt rec 74 ≠ 0) ((s16lane rec 23 : ℚ) / 90),
  wd := maskField (16 &&& byteAt rec 77 ≠ 0) (s16lane rec 24),
  ws := maskField (16 &&& byteAt rec 77 ≠ 0) (s16lane rec 25),
  oat := maskField (32 &&& byteAt rec 77 ≠ 0) (s16lane rec 26),
  tat := maskField (32 &&& byteAt rec 77 ≠ 0) (s16lane rec 27),
  tas := maskField (2 &&& byteAt rec 74 ≠ 0) (u16lane rec 28),
  ias := maskField (1 &&& byteAt rec 74 ≠ 0) (u16lane rec 29),
  rc := u16lane rec 30,
  messages := if useRate then 0 else u16lane rec 31,
  message_rate := if useRate then u16lane rec 31 / 10 else 0,
  category := if byteAt rec 64 ≠ 0 then some (hex2U (byteAt rec 64)) else none,
  nic := byteAt rec 65,
  nav_modes := if 4 &&& byteAt rec 77 ≠ 0 then navModesList (byteAt rec 66) else [],
  emergency := maskField (8 &&& byteAt rec 76 ≠ 0) (15 &&& byteAt rec 67),
  signal_type := some (signalTypeOf ((240 &&& byteAt rec 67) >>> 4)),
  airground := 15 &&& byteAt rec 68,
  nav_altitude_src := maskField (1 &&& byteAt rec 77 ≠ 0) ((240 &&& byteAt rec 68) >>> 4),
  sil_type := 15 &&& byteAt rec 69,
  adsb_version := (240 &&& byteAt rec 69) >>> 4,
  adsr_version := 15 &&& byteAt rec 70,
  tisb_version := (240 &&& byteAt rec 70) >>> 4,
  nac_p := maskField (32 &&& byteAt rec 75 ≠ 0) (15 &&& byteAt rec 71),
  nac_v := maskField (64 &&& byteAt rec 75 ≠ 0) ((240 &&& byteAt rec 71) >>> 4),
  sil := maskField (128 &&& byteAt rec 75 ≠ 0) (3 &&& byteAt rec 72),
  gva := maskField (1 &&& byteAt rec 76 ≠ 0) ((12 &&& byteAt rec 72) >>> 2),
  sda := maskField (2 &&& byteAt rec 76 ≠ 0) ((48 &&& byteAt rec 72) >>> 4),
  nic_a := maskField (4 &&& byteAt rec 75 ≠ 0) ((64 &&& byteAt rec 72) >>> 6),
  nic_c := maskField (8 &&& byteAt rec 75 ≠ 0) ((128 &&& byteAt rec 72) >>> 7),
  flight := maskField (8 &&& b73v ≠ 0) (trimZeros (byteSlice rec 78 86)),
  db_flags := u16lane rec 43,
  tail := trimZeros (byteSlice rec 88 92),
  registration := trimZeros (byteSlice rec 92 104),
  receiver_count := byteAt rec 104,
  rssi_raw := byteAt rec 105,
  extra_flags := byteAt rec 106,
  nogps := 1 &&& byteAt rec 106,
  nic_baro := maskField (16 &&& byteAt rec 75 ≠ 0) (1 &&& b73v),
  alert1 := maskField (8 &&& byteAt rec 77 ≠ 0) (2 &&& b73v),
  spi := maskField (16 &&& byteAt rec 76 ≠ 0) (4 &&& b73v),
  r_id := none }

/-- build_aircraft with its private copy made explicit: the result pairs
the aircraft with the state of the local copy of the record after the
call (main.rs:143 copies the slice; main.rs:273-276 is the only write).
The guard collects the panic conditions of the fixed reads: the u16 lane
vector is indexed up to lane 43 (stride at least 88), the lane loops read
the first stride bytes of the copy, and the byte reads reach index 106.
A squawk panic is the remaining failure, via squawkRaw. -/
def buildAircraftCore (rec : List Nat) (stride : Nat) (useRate : Bool) :
    Option (Aircraft × List Nat) :=
  if stride < 88 ∨ rec.length < stride ∨ rec.length < 107 then none
  else
    match squawkRaw (u16lane rec 16) with
    | none => none
    | some sq =>
        some (mkAircraft rec (effByte73 rec) useRate sq,
              if 1 &&& byteAt rec 106 ≠ 0 ∧ s32lane rec 3 = 2147483647 then
                rec.set 73 (byteAt rec 73 ||| 80)
              else rec)

/-- build_aircraft as the caller sees it: the mutated copy is dropped. -/
def buildAircraft (rec : List Nat) (stride : Nat) (useRate : Bool) :
    Option Aircraft :=
  Option.map Prod.fst (buildAircraftCore rec stride useRate)

/-- The message-rate mode flag, main.rs:402: globe_index is the u32 at
offset 16 and bin_craft_version the u32 at offset 40 (main.rs:393 reads
it from the first 44 header bytes). -/
def useRateOf (data : List Nat) : Bool :=
  decide (le32at data 16 ≠ 0 ∧ 20220916 ≤ le32at data 40)

/-- The record loop of main.rs:397-405.  The Rust range starts at stride
and steps by stride while below the buffer length, which for stride at
least 1 is exactly (length - 1) / stride iterations; each iteration
slices stride bytes (a panic, modeled none, when the slice leaves the
buffer) and decodes them. -/
def decodeChunks (data : List Nat) (stride : Nat) (useRate : Bool) :
    Nat → Nat → Option (List Aircraft)
  | 0, _ => some []
  | Nat.succ n, off =>
      if off + stride ≤ data.length then
        match buildAircraft ((data.drop off).take stride) stride useRate with
        | some a =>
            Option.map (fun l => a :: l)
              (decodeChunks data stride useRate n (off + stride))
        | none => none
      else none

/-- The snapshot entity, main.rs:120-134.  The f64 fields are exact
rationals; bin_craft_version is a local of parse_adsb and is not stored,
as in the source. -/
structure BinCraft where
  now : ℚ := 0
  stride : ℕ := 0
  global_ac_count_withpos : ℕ := 0
  globe_index : ℕ := 0
  south : ℤ := 0
  west : ℤ := 0
  north : ℤ := 0
  east : ℤ := 0
  messages : ℕ := 0
  receiver_lat : ℚ := 0
  receiver_lon : ℚ := 0
  aircraft : List Aircraft := []
deriving DecidableEq, Inhabited

/-- parse_adsb, main.rs:374-423.  Panics are modeled as none: the header
slice of the first 44 bytes, the slice data[32 .. 32+stride], and the
receiver reads s32[32..40] inside it (so stride below 40, including the
stride 0 that would make step_by panic, fails).  The f64 literal
4294967.296 of line 376 is 2^32 / 1000 exactly. -/
def parseADSB (data : List Nat) : Option BinCraft :=
  if data.length < 44 then none
  else if data.length < 32 + le32at data 8 then none
  else if le32at data 8 < 40 then none
  else
    match decodeChunks data (le32at data 8) (useRateOf data)
        ((data.length - 1) / le32at data 8) (le32at data 8) with
    | none => none
    | some l =>
        some {
          now := (le32at data 0 : ℚ) / 1000 +
                 (4294967296 / 1000 : ℚ) * (le32at data 4 : ℚ),
          stride := le32at data 8,
          global_ac_count_withpos := le32at data 12,
          globe_index := le32at data 16,
          south := s16at data 20,
          west := s16at data 22,
          north := s16at data 24,
          east := s16at data 26,
          messages := le32at data 28,
          receiver_lat := (s32at data 64 : ℚ) / 1000000,
          receiver_lon := (s32at data 68 : ℚ) / 1000000,
          aircraft := l }

/-- The record slice that feeds aircraft number i (zero-based): bytes
[(i+1) * stride, (i+2) * stride). -/
def chunkAt (data : List Nat) (stride i : Nat) : List Nat :=
  (data.drop ((i + 1) * stride)).take stride

/-- A single-bit mask test is nonzero exactly when the corresponding bit
of the masked byte is set. -/
lemma and_pow_ne_iff (i b : Nat) : (2 ^ i &&& b ≠ 0) ↔ b.testBit i = true := by
  rw [Nat.two_pow_and]
  cases h : b.testBit i <;> simp [h, (Nat.two_pow_pos i).ne']

/-- Conditionals over a single-bit mask test rewrite to conditionals on
the bit itself. -/
lemma ite_and_pow {α : Sort 1} (i b : Nat) (x y : α) :
    (if 2 ^ i &&& b ≠ 0 then x else y) = (if b.testBit i then x else y) :=
  if_congr (and_pow_ne_iff i b) rfl rfl

/-- maskField over a single-bit mask test, phrased on the bit. -/
lemma maskField_pow {α : Type} (i b : Nat) (v : α) :
    maskField (2 ^ i &&& b ≠ 0) v = if b.testBit i then some v else none :=
  ite_and_pow i b (some v) none

/-- Inversion of a successful build_aircraft call: the squawk step did not
panic and the result is the mkAircraft value over the sentinel-corrected
byte 73. -/
theorem build_success (rec : List Nat) (stride : Nat) (u : Bool) (a : Aircraft)
    (h : buildAircraft rec stride u = some a) :
    ∃ sq, squawkRaw (u16lane rec 16) = some sq ∧
      a = mkAircraft rec (effByte73 rec) u sq := by
  unfold buildAircraft buildAircraftCore at h
  split at h
  · simp at h
  · cases hsq : squawkRaw (u16lane rec 16) with
    | none => rw [hsq] at h; simp at h
    | some sq =>
        rw [hsq] at h
        simp only [Option.map_some'] at h
        exact ⟨sq, rfl, (Option.some_inj.mp h).symm⟩

/-- Inversion of a successful parse_adsb call: the header guards passed,
the record loop succeeded and produced the aircraft list, and the now
field is the reconstructed timestamp. -/
theorem parse_inv (data : List Nat) (s : BinCraft) (h : parseADSB data = some s) :
    44 ≤ data.length ∧ 32 + le32at data 8 ≤ data.length ∧ 40 ≤ le32at data 8 ∧
    decodeChunks data (le32at data 8) (useRateOf data)
      ((data.length - 1) / le32at data 8) (le32at data 8) = some s.aircraft ∧
    s.now = (le32at data 0 : ℚ) / 1000 + (4294967296 / 1000 : ℚ) * (le32at data 4 : ℚ) := by
  unfold parseADSB at h
  split at h
  · simp at h
  · split at h
    · simp at h
    · split at h
      · simp at h
      · cases hd : decodeChunks data (le32at data 8) (useRateOf data)
            ((data.length - 1) / le32at data 8) (le32at data 8) with
        | none => rw [hd] at h; simp at h
        | some l =>
            rw [hd] at h
            cases Option.some_inj.mp h
            refine ⟨by omega, by omega, by omega, by simp [hd], rfl⟩

/-- A successful record loop yields exactly one aircraft per iteration. -/
theorem decodeChunks_len (data : List Nat) (stride : Nat) (u : Bool) :
    ∀ n off l, decodeChunks data stride u n off = some l → l.length = n := by
  intro n
  induction n with
  | zero => intro off l h; cases Option.some_inj.mp h; rfl
  | succ n ih =>
      intro off l h
      unfold decodeChunks at h
      split at h
      · cases hb : buildAircraft ((data.drop off).take stride) stride u with
        | none => rw [hb] at h; simp at h
        | some a =>
            rw [hb] at h
            rcases Option.map_eq_some'.mp h with ⟨l', hl', rfl⟩
            simp [ih (off + stride) l' hl']
      · simp at h

/-- When the iterations do not fit in the buffer, the record loop fails:
this is the out-of-bounds slice panic of main.rs:400. -/
theorem decodeChunks_oob (data : List Nat) (stride : Nat) (u : Bool) :
    ∀ n off, 1 ≤ n → data.length < off + n * stride →
      decodeChunks data stride u n off = none := by
  intro n
  induction n with
  | zero => intro off h1; omega
  | succ n ih =>
      intro off _ hlen
      unfold decodeChunks
      by_cases hle : off + stride ≤ data.length
      · rw [if_pos hle]
        have hn : 1 ≤ n := by
          rcases Nat.eq_zero_or_pos n with h0 | h1
          · subst h0; simp [Nat.succ_mul] at hlen; omega
          · exact h1
        have hrec := ih (off + stride) hn (by rw [Nat.succ_mul] at hlen; omega)
        cases hb : buildAircraft ((data.drop off).take stride) stride u with
        | none => rfl
        | some a => rw [hrec]; rfl
      · rw [if_neg hle]

/-- Each element of a successful record loop is decoded from its own
byte slice of the original buffer. -/
theorem decodeChunks_get (data : List Nat) (stride : Nat) (u : Bool) :
    ∀ n off l, decodeChunks data stride u n off = some l →
      ∀ i a, l[i]? = some a →
        buildAircraft ((data.drop (off + i * stride)).take stride) stride u = some a := by
  intro n
  induction n with
  | zero => intro off l h i a ha; cases Option.some_inj.mp h; simp at ha
  | succ n ih =>
      intro off l h i a ha
      unfold decodeChunks at h
      split at h
      · cases hb : buildAircraft ((data.drop off).take stride) stride u with
        | none => rw [hb] at h; simp at h
        | some a0 =>
            rw [hb] at h
            rcases Option.map_eq_some'.mp h with ⟨l', hl', rfl⟩
            cases i with
            | zero =>
                simp at ha
                subst ha
                simpa using hb
            | succ i =>
                have := ih (off + stride) l' hl' i a (by simpa using ha)
                have harith : off + stride + i * stride = off + (i + 1) * stride := by
                  rw [Nat.succ_mul]; omega
                rwa [harith] at this
      · simp at h

/-- Aircraft number i of a successful parse is built from the byte slice
[(i+1) * stride, (i+2) * stride) of the original, unmodified buffer. -/
theorem parse_aircraft_get (data : List Nat) (s : BinCraft)
    (h : parseADSB data = some s) (i : Nat) (a : Aircraft)
    (ha : s.aircraft[i]? = some a) :
    buildAircraft (chunkAt data (le32at data 8) i) (le32at data 8)
      (useRateOf data) = some a := by
  obtain ⟨-, -, -, hd, -⟩ := parse_inv data s h
  have hg := decodeChunks_get data (le32at data 8) (useRateOf data) _ _ _ hd i a ha
  have harith : le32at data 8 + i * le32at data 8 = (i + 1) * le32at data 8 := by
    rw [Nat.succ_mul]; omega
  rw [harith] at hg
  exact hg

end Adsb

open Adsb

/-- Demonstration buffer: valid header with stride 108, one full record of
zero bytes, and a 10-byte trailing remainder (length 226 = 2 * 108 + 10). -/
def c1buf : List Nat := List.replicate 8 0 ++ [108, 0, 0, 0] ++ List.replicate 214 0

/-- Demonstration buffer: valid header with stride 108 and exactly one
full record (length 216 = 2 * 108). -/
def goodBuf : List Nat := List.replicate 8 0 ++ [108, 0, 0, 0] ++ List.replicate 204 0

/-- The snapshot decoded from goodBuf. -/
def goodSnap : BinCraft := (parseADSB goodBuf).getD default

/-- A buffer far below the 44-byte header minimum. -/
def c2shortBuf : List Nat := [1, 2, 3]

/-- Demonstration buffer with stride 110, which is not a multiple of 4:
valid header plus one full record (length 220 = 2 * 110). -/
def c2oddBuf : List Nat := List.replicate 8 0 ++ [110, 0, 0, 0] ++ List.replicate 208 0

/-- Demonstration buffer for the timestamp: time_low = 500 at offset 0,
time_high = 1 at offset 4, stride 108, one full record. -/
def c7buf : List Nat :=
  [244, 1, 0, 0, 1, 0, 0, 0] ++ [108, 0, 0, 0] ++ List.replicate 204 0

/-- The snapshot decoded from c7buf. -/
def c7snap : BinCraft := (parseADSB c7buf).getD default

/-- Shared helper for claim C1: a buffer whose length is not a multiple of
its stride field fails to decode, because the Rust record loop generates
an offset whose stride-long slice leaves the buffer (main.rs:397-400). -/
theorem parse_rem_none (data : List Nat)
    (hrem : data.length % le32at data 8 ≠ 0) : parseADSB data = none := by
  by_cases h44 : data.length < 44
  · unfold parseADSB; rw [if_pos h44]
  · by_cases h32 : data.length < 32 + le32at data 8
    · unfold parseADSB; rw [if_neg h44, if_pos h32]
    · by_cases h40 : le32at data 8 < 40
      · unfold parseADSB; rw [if_neg h44, if_neg h32, if_pos h40]
      · have hstpos : 0 < le32at data 8 := by omega
        have hdm : le32at data 8 * (data.length / le32at data 8) +
            data.length % le32at data 8 = data.length := Nat.div_add_mod _ _
        have hrlt : data.length % le32at data 8 < le32at data 8 :=
          Nat.mod_lt _ hstpos
        have hq1 : (data.length - 1) / le32at data 8 =
            data.length / le32at data 8 := by
          have h1 : data.length - 1 = le32at data 8 * (data.length / le32at data 8) +
              (data.length % le32at data 8 - 1) := by omega
          rw [h1, Nat.mul_add_div hstpos]
          have : (data.length % le32at data 8 - 1) / le32at data 8 = 0 :=
            Nat.div_eq_of_lt (by omega)
          omega
        have hqpos : 1 ≤ data.length / le32at data 8 := by
          rcases Nat.eq_zero_or_pos (data.length / le32at data 8) with h0 | h1
          · rw [h0, Nat.mul_zero] at hdm; omega
          · exact h1
        have hoob : data.length < le32at data 8 +
            ((data.length - 1) / le32at data 8) * le32at data 8 := by
          rw [hq1]
          have hcomm : data.length / le32at data 8 * le32at data 8 =
              le32at data 8 * (data.length / le32at data 8) := Nat.mul_comm _ _
          omega
        have hM1 : 1 ≤ (data.length - 1) / le32at data 8 := by rw [hq1]; exact hqpos
        unfold parseADSB
        rw [if_neg h44, if_neg h32, if_neg h40]
        rw [decodeChunks_oob data (le32at data 8) (useRateOf data) _
          (le32at data 8) hM1 hoob]

/-- C1 (corrected): a decompressed buffer whose byte count is not an exact
multiple of the stride field fails to decode (the trailing remainder is
not dropped: the record loop slices out of bounds); when the length is an
exact multiple, the decode returns exactly one aircraft per full record
after the header region, that is length / stride - 1 of them. -/
theorem c1_remainder (data : List Nat) :
    (data.length % le32at data 8 ≠ 0 → parseADSB data = none) ∧
    (∀ s, parseADSB data = some s →
      s.aircraft.length = data.length / le32at data 8 - 1) := by
  constructor
  · exact parse_rem_none data
  · intro s h
    obtain ⟨h44, h32, h40, hd, -⟩ := parse_inv data s h
    have hlen := decodeChunks_len data (le32at data 8) (useRateOf data) _ _ _ hd
    have hrem0 : data.length % le32at data 8 = 0 := by
      by_contra hne
      rw [parse_rem_none data hne] at h
      exact Option.noConfusion h
    have hstpos : 0 < le32at data 8 := by omega
    have hdm : le32at data 8 * (data.length / le32at data 8) +
        data.length % le32at data 8 = data.length := Nat.div_add_mod _ _
    have hqpos : 1 ≤ data.length / le32at data 8 := by
      rcases Nat.eq_zero_or_pos (data.length / le32at data 8) with h0 | h1
      · rw [h0, Nat.mul_zero] at hdm; omega
      · exact h1
    have hsucc : le32at data 8 * (data.length / le32at data 8 - 1) + le32at data 8 =
        le32at data 8 * (data.length / le32at data 8) := by
      rw [← Nat.mul_succ]
      congr 1
      omega
    have h1 : data.length - 1 = le32at data 8 * (data.length / le32at data 8 - 1) +
        (le32at data 8 - 1) := by omega
    have hq1 : (data.length - 1) / le32at data 8 =
        data.length / le32at data 8 - 1 := by
      rw [h1, Nat.mul_add_div hstpos]
      have : (le32at data 8 - 1) / le32at data 8 = 0 := Nat.div_eq_of_lt (by omega)
      omega
    rw [hlen, hq1]

/-- C1 counterexample: the buffer with one valid header, one full
stride-sized record and 10 trailing bytes does not decode to one
aircraft; the decode fails outright. -/
theorem c1_counterexample :
    c1buf.length = 2 * le32at c1buf 8 + 10 ∧ 10 < le32at c1buf 8 ∧
    parseADSB c1buf = none := by
  refine ⟨by decide, by decide, by rfl⟩

/-- C1 witness: the amended claim applied to the same concrete buffer. -/
theorem c1_witness :
    (c1buf.length % le32at c1buf 8 ≠ 0 ∧ parseADSB c1buf = none) ∧
    (parseADSB goodBuf = some goodSnap ∧
      goodSnap.aircraft.length = goodBuf.length / le32at goodBuf 8 - 1) :=
  ⟨⟨by decide, (c1_remainder c1buf).1 (by decide)⟩,
   ⟨by rfl, (c1_remainder goodBuf).2 goodSnap (by rfl)⟩⟩

/-- C2 (corrected): the decode fails whenever the buffer is shorter than
the 44-byte header prefix, shorter than 32 + stride, or the stride field
is below 40 (in particular stride 0); these are the panic sites of
main.rs:375-391, modeled as none.  There is no FormatError value and no
multiple-of-4 check in the code. -/
theorem c2_header_failures (data : List Nat)
    (h : data.length < 44 ∨ data.length < 32 + le32at data 8 ∨ le32at data 8 < 40) :
    parseADSB data = none := by
  unfold parseADSB
  split
  · rfl
  · split
    · rfl
    · split
      · rfl
      · exfalso; rcases h with h | h | h <;> omega

/-- C2 counterexample: a buffer whose stride field is 110, not a multiple
of 4, decodes successfully, contradicting the claim that such headers
fail with an error. -/
theorem c2_counterexample :
    le32at c2oddBuf 8 % 4 = 2 ∧ (parseADSB c2oddBuf).isSome = true := by
  refine ⟨by decide, by rfl⟩

/-- C2 witness: the amended claim applied to a concrete 3-byte buffer. -/
theorem c2_witness :
    (c2shortBuf.length < 44 ∨ c2shortBuf.length < 32 + le32at c2shortBuf 8 ∨
      le32at c2shortBuf 8 < 40) ∧
    parseADSB c2shortBuf = none :=
  ⟨by decide, c2_header_failures c2shortBuf (by decide)⟩

/-- C7 (confirmed): the snapshot timestamp of every successful decode is
time_low / 1000 + time_high * 4294967.296, with the two fields read as
unsigned little-endian 32-bit values at offsets 0 and 4 and the literal
4294967.296 denoting exactly 2^32 / 1000. -/
theorem c7_now_formula (data : List Nat) (s : BinCraft)
    (h : parseADSB data = some s) :
    s.now = (le32at data 0 : ℚ) / 1000 +
      (le32at data 4 : ℚ) * (4294967296 / 1000 : ℚ) := by
  have hn := (parse_inv data s h).2.2.2.2
  rw [hn]; ring

/-- C7 witness: low = 500 and high = 1 reconstruct as the claim shows. -/
theorem c7_witness :
    le32at c7buf 0 = 500 ∧ le32at c7buf 4 = 1 ∧
    parseADSB c7buf = some c7snap ∧
    c7snap.now = (le32at c7buf 0 : ℚ) / 1000 +
      (le32at c7buf 4 : ℚ) * (4294967296 / 1000 : ℚ) :=
  ⟨by decide, by decide, by rfl, c7_now_formula c7buf c7snap (by rfl)⟩

/-- C9 (confirmed): decoding is a pure function of the buffer bytes: the
same buffer decodes to the same snapshot on every run, equal buffers give
equal snapshots, and a buffer has at most one decode result. -/
theorem c9_pure (data : List Nat) :
    parseADSB data = parseADSB data ∧
    (∀ d, d = data → parseADSB d = parseADSB data) ∧
    (∀ s1 s2, parseADSB data = some s1 → parseADSB data = some s2 → s1 = s2) :=
  ⟨rfl, fun d hd => by rw [hd], fun s1 s2 h1 h2 => by
    rw [h1] at h2; exact Option.some_inj.mp h2⟩

/-- C9 witness: the purity statement applied to a concrete buffer that
decodes successfully. -/
theorem c9_witness :
    parseADSB goodBuf = some goodSnap ∧
    parseADSB goodBuf = parseADSB goodBuf ∧ goodSnap = goodSnap :=
  ⟨by rfl, (c9_pure goodBuf).1,
   (c9_pure goodBuf).2.2 goodSnap goodSnap (by rfl) (by rfl)⟩

/-- Record whose squawk lane holds 0xa123 = 41251: the first hex digit is
the letter a, so the Rust to_digit(10).unwrap() panics. -/
def c3rec : List Nat := List.replicate 32 0 ++ [35, 161] ++ List.replicate 74 0

/-- Record with the nogps flag set (byte 106 bit 0) and the raw latitude
lane holding the sentinel 2147483647, with every validity byte zero. -/
def c4rec : List Nat :=
  List.replicate 12 0 ++ [255, 255, 255, 127] ++ List.replicate 90 0 ++ [1, 0]

/-- The aircraft decoded from c4rec. -/
def c4plane : Aircraft := (buildAircraft c4rec 108 false).getD default

/-- Record with byte 73 = 8 (flight validity bit set) and flight text
bytes 65 66 67 at offsets 78-80. -/
def c5rec : List Nat :=
  List.replicate 73 0 ++ [8] ++ List.replicate 4 0 ++ [65, 66, 67] ++
    List.replicate 27 0

/-- The aircraft decoded from c5rec. -/
def c5plane : Aircraft := (buildAircraft c5rec 108 false).getD default

/-- Record with byte 73 = 0 (so the alleged alert1 validity bit 1 of byte
73 is clear) but byte 77 bit 3 set, which is the mask the code actually
applies to alert1. -/
def c5xrec : List Nat := List.replicate 77 0 ++ [8] ++ List.replicate 30 0

/-- Buffer with stride 108, globe_index 1 at offset 16, the u32 at offset
40 equal to 20220916, the u32 at offset 72 equal to 0, and one record
whose u16 lane 31 (record bytes 62-63) holds 57. -/
def c6buf : List Nat :=
  List.replicate 8 0 ++ [108, 0, 0, 0] ++ List.replicate 4 0 ++ [1, 0, 0, 0] ++
    List.replicate 20 0 ++ [244, 139, 52, 1] ++ List.replicate 126 0 ++ [57] ++
    List.replicate 45 0

/-- The snapshot decoded from c6buf. -/
def c6snap : BinCraft := (parseADSB c6buf).getD default

/-- The single aircraft of c6snap. -/
def c6plane : Aircraft := c6snap.aircraft.getD 0 default

/-- Record whose u32 lane 0 is 0x00ABCDEF with bit 24 clear. -/
def c8rec : List Nat := [239, 205, 171] ++ List.replicate 105 0

/-- The aircraft decoded from c8rec. -/
def c8plane : Aircraft := (buildAircraft c8rec 108 false).getD default

/-- Record whose u32 lane 0 has the same low 24 bits and bit 24 set. -/
def c8recT : List Nat := [239, 205, 171, 1] ++ List.replicate 104 0

/-- The aircraft decoded from c8recT. -/
def c8planeT : Aircraft := (buildAircraft c8recT 108 false).getD default

/-- The single aircraft of goodSnap. -/
def goodPlane : Aircraft := goodSnap.aircraft.getD 0 default

/-- C10 (confirmed): build_aircraft works on a private copy: the only
write the call performs lands on byte 73 of its own copy (the record
slice is otherwise returned unchanged, with unchanged length), and every
aircraft of a successful parse is decoded from the corresponding slice of
the original, unmodified buffer, so the sentinel write of one record
cannot influence any other record. -/
theorem c10_private_copy :
    (∀ rec stride u a rec2, buildAircraftCore rec stride u = some (a, rec2) →
        rec2.length = rec.length ∧ ∀ k, k ≠ 73 → rec2.getD k 0 = rec.getD k 0) ∧
    (∀ data s, parseADSB data = some s → ∀ i a, s.aircraft[i]? = some a →
        buildAircraft (chunkAt data (le32at data 8) i) (le32at data 8)
          (useRateOf data) = some a) := by
  constructor
  · intro rec stride u a rec2 h
    unfold buildAircraftCore at h
    split at h
    · simp at h
    · cases hsq : squawkRaw (u16lane rec 16) with
      | none => rw [hsq] at h; simp at h
      | some sq =>
          rw [hsq] at h
          have hp := Option.some_inj.mp h
          rw [Prod.mk.injEq] at hp
          obtain ⟨-, hr⟩ := hp
          subst hr
          split_ifs with hc
          · refine ⟨List.length_set rec 73 _, fun k hk => ?_⟩
            simp [List.getD_eq_getElem?_getD, List.getElem?_set_ne (Ne.symm hk)]
          · exact ⟨rfl, fun _ _ => rfl⟩
  · exact fun data s h i a ha => parse_aircraft_get data s h i a ha

/-- C10 witness: the frame statement applied to the sentinel-firing
record c4rec and to the concrete buffer goodBuf. -/
theorem c10_witness :
    (buildAircraftCore c4rec 108 false =
      some (c4plane, c4rec.set 73 (byteAt c4rec 73 ||| 80)) ∧
     (c4rec.set 73 (byteAt c4rec 73 ||| 80)).length = c4rec.length ∧
     (c4rec.set 73 (byteAt c4rec 73 ||| 80)).getD 74 0 = c4rec.getD 74 0) ∧
    (parseADSB goodBuf = some goodSnap ∧ goodSnap.aircraft[0]? = some goodPlane ∧
     buildAircraft (chunkAt goodBuf (le32at goodBuf 8) 0) (le32at goodBuf 8)
       (useRateOf goodBuf) = some goodPlane) := by
  refine ⟨⟨by rfl, ?_, ?_⟩, by rfl, by rfl, ?_⟩
  · exact (c10_private_copy.1 c4rec 108 false c4plane _ (by rfl)).1
  · exact (c10_private_copy.1 c4rec 108 false c4plane _ (by rfl)).2 74 (by decide)
  · exact c10_private_copy.2 goodBuf goodSnap (by rfl) 0 goodPlane (by rfl)

/-- C6 (corrected): the schema version that selects message-rate mode is
the unsigned little-endian u32 at header offset 40 (not 72); lane 31 of
every record decodes as message_rate = u16 lane 31 / 10 with messages
left 0 exactly when globe_index is nonzero and that offset-40 version is
at least 20220916, and as the raw messages count with message_rate left 0
otherwise. -/
theorem c6_message_mode (data : List Nat) (s : BinCraft)
    (h : parseADSB data = some s) (i : Nat) (a : Aircraft)
    (ha : s.aircraft[i]? = some a) :
    (le32at data 16 ≠ 0 ∧ 20220916 ≤ le32at data 40 →
       a.message_rate = u16lane (chunkAt data (le32at data 8) i) 31 / 10 ∧
       a.messages = 0) ∧
    (¬(le32at data 16 ≠ 0 ∧ 20220916 ≤ le32at data 40) →
       a.messages = u16lane (chunkAt data (le32at data 8) i) 31 ∧
       a.message_rate = 0) := by
  have hb := parse_aircraft_get data s h i a ha
  obtain ⟨sq, hsq, rfl⟩ := build_success _ _ _ _ hb
  constructor
  · intro hc
    have hu : useRateOf data = true := by unfold useRateOf; exact decide_eq_true hc
    constructor <;> simp [mkAircraft, hu]
  · intro hc
    have hu : useRateOf data = false := by unfold useRateOf; exact decide_eq_false hc
    constructor <;> simp [mkAircraft, hu]

/-- C6 counterexample: in c6buf the u32 at offset 72 is 0, which is below
20220916, so by the claim the record should keep its raw messages count
57; the code instead reads the version at offset 40 (20220916 here),
activates message-rate mode and yields message_rate 5 with messages 0. -/
theorem c6_counterexample :
    le32at c6buf 72 = 0 ∧ le32at c6buf 40 = 20220916 ∧ le32at c6buf 16 = 1 ∧
    u16lane (chunkAt c6buf 108 0) 31 = 57 ∧
    Option.map (fun s => Option.map (fun a => (a.message_rate, a.messages))
      s.aircraft[0]?) (parseADSB c6buf) = some (some (5, 0)) := by
  refine ⟨by decide, by decide, by decide, by decide, by rfl⟩

/-- C6 witness: the amended claim applied to c6buf and its record 0. -/
theorem c6_witness :
    (parseADSB c6buf = some c6snap ∧ c6snap.aircraft[0]? = some c6plane ∧
      (le32at c6buf 16 ≠ 0 ∧ 20220916 ≤ le32at c6buf 40)) ∧
    c6plane.message_rate = u16lane (chunkAt c6buf (le32at c6buf 8) 0) 31 / 10 ∧
    c6plane.messages = 0 := by
  refine ⟨⟨by rfl, by rfl, by decide⟩, ?_⟩
  exact (c6_message_mode c6buf c6snap (by rfl) 0 c6plane (by rfl)).1 (by decide)

/-- hex6 always yields exactly six characters. -/
lemma hex6_len (n : Nat) : (hex6 n).length = 6 := rfl

/-- C8 (confirmed): the identity string is the low 24 bits of u32 lane 0
printed as exactly six lowercase hex digits, prefixed with a tilde
exactly when bit 24 of the lane is set; its length is 6, or 7 with the
prefix. -/
theorem c8_hex_identity (rec : List Nat) (stride : Nat) (u : Bool)
    (a : Aircraft) (h : buildAircraft rec stride u = some a) :
    a.hex = (if (u32lane rec 0).testBit 24 then
               ("~") ++ hex6 (u32lane rec 0 % 16777216)
             else hex6 (u32lane rec 0 % 16777216)) ∧
    a.hex.length = (if (u32lane rec 0).testBit 24 then 7 else 6) := by
  obtain ⟨sq, hsq, rfl⟩ := build_success _ _ _ _ h
  have hmask : 16777215 &&& u32lane rec 0 = u32lane rec 0 % 16777216 := by
    rw [Nat.and_comm]
    exact Nat.and_pow_two_sub_one_eq_mod (u32lane rec 0) 24
  have hte := and_pow_ne_iff 24 (u32lane rec 0)
  have hhex : (mkAircraft rec (effByte73 rec) u sq).hex =
      (if (u32lane rec 0).testBit 24 then
         ("~") ++ hex6 (u32lane rec 0 % 16777216)
       else hex6 (u32lane rec 0 % 16777216)) := by
    simp only [mkAircraft]
    rw [hmask]
    exact if_congr hte rfl rfl
  refine ⟨hhex, ?_⟩
  rw [hhex]
  cases h24 : (u32lane rec 0).testBit 24 <;>
    simp [h24, String.length_append, hex6_len,
      show String.length ("~") = 1 from rfl]

/-- C8 witness: lane 0x00ABCDEF with bit 24 clear gives abcdef, and with
bit 24 set gives the tilde prefix, on concrete records. -/
theorem c8_witness :
    (u32lane c8rec 0 = 11259375 ∧ (u32lane c8rec 0).testBit 24 = false ∧
     buildAircraft c8rec 108 false = some c8plane ∧
     c8plane.hex = (if (u32lane c8rec 0).testBit 24 then
                      ("~") ++ hex6 (u32lane c8rec 0 % 16777216)
                    else hex6 (u32lane c8rec 0 % 16777216)) ∧
     c8plane.hex = "abcdef") ∧
    ((u32lane c8recT 0).testBit 24 = true ∧
     buildAircraft c8recT 108 false = some c8planeT ∧
     c8planeT.hex = "~abcdef") := by
  refine ⟨⟨by decide, by rfl, by rfl, ?_, by rfl⟩, by rfl, by rfl, by rfl⟩
  exact (c8_hex_identity c8rec 108 false c8plane (by rfl)).1

/-- C4 (corrected): when the nogps flag is set and the raw latitude lane
is the sentinel 2147483647, bits 4 and 6 of the effective byte 73 are
force-set before masking, so the position group (lat, lon, seen_pos) and
the barometric altitude are present; the NIC-baro field is governed by
byte 75 bit 4, which the correction does not touch. -/
theorem c4_sentinel_force (rec : List Nat) (stride : Nat) (u : Bool)
    (a : Aircraft) (h : buildAircraft rec stride u = some a)
    (hng : 1 &&& byteAt rec 106 ≠ 0) (hlat : s32lane rec 3 = 2147483647) :
    (effByte73 rec).testBit 4 = true ∧ (effByte73 rec).testBit 6 = true ∧
    a.lat = some ((s32lane rec 3 : ℚ) / 1000000) ∧
    a.lon = some ((s32lane rec 2 : ℚ) / 1000000) ∧
    a.seen_pos = some ((u16lane rec 2 : ℚ) / 10) ∧
    a.alt_baro = some (25 * s16lane rec 10) := by
  obtain ⟨sq, hsq, rfl⟩ := build_success _ _ _ _ h
  have heff : effByte73 rec = byteAt rec 73 ||| 80 := by
    unfold effByte73; exact if_pos ⟨hng, hlat⟩
  have h4 : (effByte73 rec).testBit 4 = true := by
    rw [heff, Nat.testBit_or]
    simp [show Nat.testBit 80 4 = true from rfl]
  have h6 : (effByte73 rec).testBit 6 = true := by
    rw [heff, Nat.testBit_or]
    simp [show Nat.testBit 80 6 = true from rfl]
  have hm4 : (16 &&& effByte73 rec ≠ 0) := (and_pow_ne_iff 4 _).mpr h4
  have hm6 : (64 &&& effByte73 rec ≠ 0) := (and_pow_ne_iff 6 _).mpr h6
  refine ⟨h4, h6, ?_, ?_, ?_, ?_⟩ <;> simp [mkAircraft, maskField, hm4, hm6]

/-- C4 counterexample: on a record where the sentinel fires but byte 75
bit 4 is clear, the decoded aircraft has no nic_baro field, although the
claim promises it present. -/
theorem c4_counterexample :
    1 &&& byteAt c4rec 106 ≠ 0 ∧ s32lane c4rec 3 = 2147483647 ∧
    (byteAt c4rec 75).testBit 4 = false ∧
    Option.map Aircraft.nic_baro (buildAircraft c4rec 108 false) = some none := by
  refine ⟨by decide, by decide, by rfl, by rfl⟩

/-- C4 witness: the amended sentinel statement applied to c4rec. -/
theorem c4_witness :
    (1 &&& byteAt c4rec 106 ≠ 0 ∧ s32lane c4rec 3 = 2147483647 ∧
     buildAircraft c4rec 108 false = some c4plane) ∧
    (effByte73 c4rec).testBit 4 = true ∧ (effByte73 c4rec).testBit 6 = true ∧
    c4plane.lat = some ((s32lane c4rec 3 : ℚ) / 1000000) ∧
    c4plane.alt_baro = some (25 * s16lane c4rec 10) := by
  have hc := c4_sentinel_force c4rec 108 false c4plane (by rfl) (by decide) (by decide)
  exact ⟨⟨by decide, by decide, by rfl⟩, hc.1, hc.2.1, hc.2.2.1, hc.2.2.2.2.2⟩

/-- C3 (code bug): a squawk lane holding 0xa123 = 41251 has the hex-only
first digit a, the Rust to_digit(10).unwrap() panics instead of yielding
the string a123, and the whole record decode fails. -/
theorem c3_squawk_panics :
    u16lane c3rec 16 = 41251 ∧ u16lane c3rec 16 / 4096 % 16 = 10 ∧
    squawkRaw (u16lane c3rec 16) = none ∧
    buildAircraft c3rec 108 false = none :=
  ⟨by decide, by decide, by rfl, by rfl⟩

/-- C5 (corrected): the full validity table as the code implements it.
Byte 73 is taken after the sentinel correction; its bits 3-7 are genuine
validity bits (flight, alt_baro, alt_geom, the position group, gs), while
its bits 0-2 are the values of nic_baro, alert1 and spi, whose presence
is governed by byte 75 bit 4, byte 77 bit 3 and byte 76 bit 4.  Bytes 74,
75, 76 carry eight validity bits each and byte 77 six, as listed; a clear
bit forces the fields absent whatever the underlying bytes hold, and a
set bit reproduces the pre-computed scaled value exactly. -/
theorem c5_validity_table (rec : List Nat) (stride : Nat) (u : Bool)
    (a : Aircraft) (h : buildAircraft rec stride u = some a) :
    a.flight = (if (effByte73 rec).testBit 3 then
      some (trimZeros (byteSlice rec 78 86)) else none) ∧
    a.alt_baro = (if (effByte73 rec).testBit 4 then
      some (25 * s16lane rec 10) else none) ∧
    a.alt_geom = (if (effByte73 rec).testBit 5 then
      some (25 * s16lane rec 11) else none) ∧
    a.lat = (if (effByte73 rec).testBit 6 then
      some ((s32lane rec 3 : ℚ) / 1000000) else none) ∧
    a.lon = (if (effByte73 rec).testBit 6 then
      some ((s32lane rec 2 : ℚ) / 1000000) else none) ∧
    a.seen_pos = (if (effByte73 rec).testBit 6 then
      some ((u16lane rec 2 : ℚ) / 10) else none) ∧
    a.gs = (if (effByte73 rec).testBit 7 then
      some ((s16lane rec 17 : ℚ) / 10) else none) ∧
    a.ias = (if (byteAt rec 74).testBit 0 then some (u16lane rec 29) else none) ∧
    a.tas = (if (byteAt rec 74).testBit 1 then some (u16lane rec 28) else none) ∧
    a.mach = (if (byteAt rec 74).testBit 2 then
      some ((s16lane rec 18 : ℚ) / 1000) else none) ∧
    a.track = (if (byteAt rec 74).testBit 3 then
      some ((s16lane rec 20 : ℚ) / 90) else none) ∧
    a.track_rate = (if (byteAt rec 74).testBit 4 then
      some ((s16lane rec 21 : ℚ) / 100) else none) ∧
    a.roll = (if (byteAt rec 74).testBit 5 then
      some ((s16lane rec 19 : ℚ) / 100) else none) ∧
    a.mag_heading = (if (byteAt rec 74).testBit 6 then
      some ((s16lane rec 22 : ℚ) / 90) else none) ∧
    a.true_heading = (if (byteAt rec 74).testBit 7 then
      some ((s16lane rec 23 : ℚ) / 90) else none) ∧
    a.baro_rate = (if (byteAt rec 75).testBit 0 then
      some (8 * s16lane rec 8) else none) ∧
    a.geom_rate = (if (byteAt rec 75).testBit 1 then
      some (8 * s16lane rec 9) else none) ∧
    a.nic_a = (if (byteAt rec 75).testBit 2 then
      some ((64 &&& byteAt rec 72) >>> 6) else none) ∧
    a.nic_c = (if (byteAt rec 75).testBit 3 then
      some ((128 &&& byteAt rec 72) >>> 7) else none) ∧
    a.nic_baro = (if (byteAt rec 75).testBit 4 then
      some (1 &&& effByte73 rec) else none) ∧
    a.nac_p = (if (byteAt rec 75).testBit 5 then
      some (15 &&& byteAt rec 71) else none) ∧
    a.nac_v = (if (byteAt rec 75).testBit 6 then
      some ((240 &&& byteAt rec 71) >>> 4) else none) ∧
    a.sil = (if (byteAt rec 75).testBit 7 then
      some (3 &&& byteAt rec 72) else none) ∧
    a.gva = (if (byteAt rec 76).testBit 0 then
      some ((12 &&& byteAt rec 72) >>> 2) else none) ∧
    a.sda = (if (byteAt rec 76).testBit 1 then
      some ((48 &&& byteAt rec 72) >>> 4) else none) ∧
    a.squawk = (if (byteAt rec 76).testBit 2 then
      squawkRaw (u16lane rec 16) else none) ∧
    a.emergency = (if (byteAt rec 76).testBit 3 then
      some (15 &&& byteAt rec 67) else none) ∧
    a.spi = (if (byteAt rec 76).testBit 4 then
      some (4 &&& effByte73 rec) else none) ∧
    a.nav_qnh = (if (byteAt rec 76).testBit 5 then
      some ((s16lane rec 14 : ℚ) / 10) else none) ∧
    a.nav_altitude_mcp = (if (byteAt rec 76).testBit 6 then
      some (4 * u16lane rec 12) else none) ∧
    a.nav_altitude_fms = (if (byteAt rec 76).testBit 7 then
      some (4 * u16lane rec 13) else none) ∧
    a.nav_altitude_src = (if (byteAt rec 77).testBit 0 then
      some ((240 &&& byteAt rec 68) >>> 4) else none) ∧
    a.nav_heading = (if (byteAt rec 77).testBit 1 then
      some ((s16lane rec 15 : ℚ) / 90) else none) ∧
    a.nav_modes = (if (byteAt rec 77).testBit 2 then
      navModesList (byteAt rec 66) else []) ∧
    a.alert1 = (if (byteAt rec 77).testBit 3 then
      some (2 &&& effByte73 rec) else none) ∧
    a.wd = (if (byteAt rec 77).testBit 4 then some (s16lane rec 24) else none) ∧
    a.ws = (if (byteAt rec 77).testBit 4 then some (s16lane rec 25) else none) ∧
    a.oat = (if (byteAt rec 77).testBit 5 then some (s16lane rec 26) else none) ∧
    a.tat = (if (byteAt rec 77).testBit 5 then some (s16lane rec 27) else none) := by
  obtain ⟨sq, hsq, rfl⟩ := build_success _ _ _ _ h
  refine ⟨maskField_pow 3 _ _, maskField_pow 4 _ _, maskField_pow 5 _ _,
    maskField_pow 6 _ _, maskField_pow 6 _ _, maskField_pow 6 _ _,
    maskField_pow 7 _ _, maskField_pow 0 _ _, maskField_pow 1 _ _,
    maskField_pow 2 _ _, maskField_pow 3 _ _, maskField_pow 4 _ _,
    maskField_pow 5 _ _, maskField_pow 6 _ _, maskField_pow 7 _ _,
    maskField_pow 0 _ _, maskField_pow 1 _ _, maskField_pow 2 _ _,
    maskField_pow 3 _ _, maskField_pow 4 _ _, maskField_pow 5 _ _,
    maskField_pow 6 _ _, maskField_pow 7 _ _, maskField_pow 0 _ _,
    maskField_pow 1 _ _, ?_, maskField_pow 3 _ _, maskField_pow 4 _ _,
    maskField_pow 5 _ _, maskField_pow 6 _ _, maskField_pow 7 _ _,
    maskField_pow 0 _ _, maskField_pow 1 _ _, ite_and_pow 2 _ _ _,
    maskField_pow 3 _ _, maskField_pow 4 _ _, maskField_pow 4 _ _,
    maskField_pow 5 _ _, maskField_pow 5 _ _⟩
  rw [hsq]
  exact maskField_pow 2 _ _

/-- C5 counterexample: byte 73 bit 1 is clear yet alert1 is present with
value 0, because the mask the code applies to alert1 is byte 77 bit 3,
not byte 73 bit 1. -/
theorem c5_counterexample :
    (byteAt c5xrec 73).testBit 1 = false ∧ (byteAt c5xrec 77).testBit 3 = true ∧
    Option.map Aircraft.alert1 (buildAircraft c5xrec 108 false) =
      some (some 0) := by
  refine ⟨by rfl, by rfl, by rfl⟩

/-- C5 witness: the validity table applied to a concrete record whose
byte 73 has the flight bit set. -/
theorem c5_witness :
    (buildAircraft c5rec 108 false = some c5plane) ∧
    c5plane.flight = (if (effByte73 c5rec).testBit 3 then
      some (trimZeros (byteSlice c5rec 78 86)) else none) ∧
    c5plane.flight = some ([65, 66, 67]) :=
  ⟨by rfl, (c5_validity_table c5rec 108 false c5plane (by rfl)).1, by rfl⟩
